import Mathlib

/-!
Verification of the marine motor sizing calculator
(`claude_code2.py`, class `MarineMotorCalculator`).

Shallow embedding conventions:
* Python floats are modelled as exact rationals (`ℚ`); values produced by
  `math.sqrt` / `math.pi` live in `ℝ`.
* A NumPy array entry that may be NaN is modelled as `Option ℚ`
  (`none` = NaN, `some q` = a finite value `q`).
* A Python function that can `raise ValueError(msg)` is modelled as
  `Except String α`, carrying the exact message raised.
-/

namespace MarineMotor

/-- `ClassificationSociety` enumeration. -/
inductive ClassificationSociety where
  | DNV | ABS | KR | BV | LR
deriving DecidableEq, Repr

/-- `MarineEnvironment` enumeration. -/
inductive MarineEnvironment where
  | COASTAL | OFFSHORE | DEEP_SEA | ARCTIC | TROPICAL
deriving DecidableEq, Repr

/-- `MotorSpecification` dataclass. -/
structure MotorSpecification where
  load_capacity_ton : ℚ
  operating_speed_rpm : ℚ
  drum_radius_m : ℚ
  system_efficiency : ℚ
  safety_factor : ℚ
  load_inertia_kgm2 : ℚ
  motor_inertia_kgm2 : ℚ
  environment : MarineEnvironment
  classification : ClassificationSociety
deriving DecidableEq, Repr

/-- The per-environment correction factors (`salt`, `temp`, `vibration`)
stored in one row of `ENVIRONMENTAL_CORRECTIONS`. -/
structure EnvFactors where
  salt : ℚ
  temp : ℚ
  vibration : ℚ
deriving DecidableEq, Repr

/-- The breakdown dictionary returned by `apply_environmental_corrections`
(keys 염분_보정 / 온도_보정 / 진동_보정 / 총_보정). -/
structure CorrectionSummary where
  salt_correction : ℚ
  temp_correction : ℚ
  vibration_correction : ℚ
  total_correction : ℚ
deriving DecidableEq, Repr

/-- `CalculationResult` dataclass. -/
structure CalculationResult where
  required_torque_nm : ℝ
  motor_power_kw : ℝ
  optimal_gear_ratio : ℝ
  minimum_gear_ratio : ℝ
  rms_torque_nm : Option ℝ
  environmental_corrections : Option CorrectionSummary

/-- Class constant `GRAVITY_ACCELERATION = 9.81`. -/
def GRAVITY_ACCELERATION : ℚ := 9.81

/-- Class constant `KGF_TO_NEWTON = 9.81`. -/
def KGF_TO_NEWTON : ℚ := 9.81

/-- Class constant `RPM_TO_RADIAN_PER_SEC = 2 * math.pi / 60`. -/
noncomputable def RPM_TO_RADIAN_PER_SEC : ℝ := 2 * Real.pi / 60

/-- Class constant `WATT_TO_KILOWATT = 1000`. -/
def WATT_TO_KILOWATT : ℚ := 1000

/-- Class table `SAFETY_FACTORS` (total over the enumeration). -/
def SAFETY_FACTORS : ClassificationSociety → ℚ
  | .DNV => 2.0
  | .ABS => 2.2
  | .KR => 2.0
  | .BV => 2.0
  | .LR => 2.0

/-- Class table `ENVIRONMENTAL_CORRECTIONS` (total over the enumeration). -/
def ENVIRONMENTAL_CORRECTIONS : MarineEnvironment → EnvFactors
  | .COASTAL => ⟨1.15, 1.05, 1.05⟩
  | .OFFSHORE => ⟨1.20, 1.08, 1.10⟩
  | .DEEP_SEA => ⟨1.10, 1.15, 1.08⟩
  | .ARCTIC => ⟨1.05, 1.20, 1.15⟩
  | .TROPICAL => ⟨1.25, 1.25, 1.12⟩

/-- `_validate_inputs`: the source iterates over the `validations` list and
raises `ValueError` with the message of the first failed check; this nested
`if` chain performs exactly those checks in the source's order. -/
def _validate_inputs (s : MotorSpecification) : Except String Unit :=
  if ¬ 0 < s.load_capacity_ton then .error "하중 용량은 0보다 커야 합니다"
  else if ¬ 0 < s.operating_speed_rpm then .error "운전 속도는 0보다 커야 합니다"
  else if ¬ 0 < s.drum_radius_m then .error "드럼 반지름은 0보다 커야 합니다"
  else if ¬ (0 < s.system_efficiency ∧ s.system_efficiency ≤ 1) then
    .error "시스템 효율은 0과 1 사이여야 합니다"
  else if ¬ 1 < s.safety_factor then .error "안전율은 1보다 커야 합니다"
  else if ¬ 0 < s.load_inertia_kgm2 then .error "부하 관성은 0보다 커야 합니다"
  else if ¬ 0 < s.motor_inertia_kgm2 then .error "모터 관성은 0보다 커야 합니다"
  else if ¬ s.drum_radius_m ≤ 5.0 then .error "드럼 반지름이 비현실적으로 큽니다 (5m 초과)"
  else .ok ()

/-- The conjunction of all invariants checked by `_validate_inputs`. -/
def ValidSpec (s : MotorSpecification) : Prop :=
  0 < s.load_capacity_ton ∧ 0 < s.operating_speed_rpm ∧ 0 < s.drum_radius_m ∧
  0 < s.system_efficiency ∧ s.system_efficiency ≤ 1 ∧ 1 < s.safety_factor ∧
  0 < s.load_inertia_kgm2 ∧ 0 < s.motor_inertia_kgm2 ∧ s.drum_radius_m ≤ 5.0

instance (s : MotorSpecification) : Decidable (ValidSpec s) := by
  unfold ValidSpec; infer_instance

/-- The eight `ValueError` messages `_validate_inputs` can raise. -/
def validationMessages : List String :=
  ["하중 용량은 0보다 커야 합니다", "운전 속도는 0보다 커야 합니다",
   "드럼 반지름은 0보다 커야 합니다", "시스템 효율은 0과 1 사이여야 합니다",
   "안전율은 1보다 커야 합니다", "부하 관성은 0보다 커야 합니다",
   "모터 관성은 0보다 커야 합니다", "드럼 반지름이 비현실적으로 큽니다 (5m 초과)"]

/-- `calculate_basic_torque`. -/
def calculate_basic_torque (s : MotorSpecification) (force_n : ℚ) : Except String ℚ :=
  if force_n ≤ 0 then .error "힘은 0보다 커야 합니다"
  else .ok (force_n * s.drum_radius_m / s.system_efficiency)

/-- `calculate_torque_from_mass`. -/
def calculate_torque_from_mass (s : MotorSpecification) (mass_kg : ℚ) : Except String ℚ :=
  calculate_basic_torque s (mass_kg * GRAVITY_ACCELERATION)

/-- `calculate_power_requirement`. -/
noncomputable def calculate_power_requirement (s : MotorSpecification) (torque_nm : ℝ) : ℝ :=
  torque_nm * ((s.operating_speed_rpm : ℝ) * RPM_TO_RADIAN_PER_SEC) / (WATT_TO_KILOWATT : ℝ)

/-- `calculate_optimal_gear_ratio`. -/
noncomputable def calculate_optimal_gear_ratio (s : MotorSpecification) : Except String ℝ :=
  if s.motor_inertia_kgm2 ≤ 0 then .error "모터 관성은 0보다 커야 합니다"
  else .ok (Real.sqrt ((s.load_inertia_kgm2 / s.motor_inertia_kgm2 : ℚ)))

/-- `calculate_minimum_gear_ratio`. -/
noncomputable def calculate_minimum_gear_ratio (s : MotorSpecification) : Except String ℝ :=
  (calculate_optimal_gear_ratio s).map (fun optimal_ratio => optimal_ratio / Real.sqrt 10)

/-- The pairs kept by the validity mask
`~(np.isnan(time_series) | np.isnan(torque_series))`: a pair survives
exactly when neither entry is NaN. -/
def validPairs (time_series torque_series : List (Option ℚ)) : List (ℚ × ℚ) :=
  (time_series.zip torque_series).filterMap fun p =>
    match p with
    | (some t, some τ) => some (t, τ)
    | _ => none

/-- The value under the square root in `calculate_rms_torque`
(`np.sum(torque_valid**2 * time_valid) / total_time`), or the error raised
before the square root is taken; `validPairs _ _ = []` is the
`not np.any(valid_indices)` check and the last guard is `total_time == 0`. -/
def rms_mean_square (time_series torque_series : List (Option ℚ)) : Except String ℚ :=
  if time_series.length ≠ torque_series.length then
    .error "시간 배열과 토크 배열의 길이가 다릅니다"
  else if time_series.length = 0 then .error "빈 배열은 처리할 수 없습니다"
  else if validPairs time_series torque_series = [] then .error "유효한 데이터가 없습니다"
  else if ((validPairs time_series torque_series).map Prod.fst).sum = 0 then
    .error "총 시간이 0입니다"
  else
    .ok ((((validPairs time_series torque_series).map fun p => p.2 ^ 2 * p.1).sum) /
      ((validPairs time_series torque_series).map Prod.fst).sum)

/-- `calculate_rms_torque`: past the four guards the source computes
`math.sqrt(weighted_torque_squared / total_time)`, and `math.sqrt` raises
`ValueError("math domain error")` on a negative argument (reachable, since
time entries may be negative). -/
noncomputable def calculate_rms_torque (time_series torque_series : List (Option ℚ)) :
    Except String ℝ :=
  match rms_mean_square time_series torque_series with
  | .error e => .error e
  | .ok q => if q < 0 then .error "math domain error" else .ok (Real.sqrt ((q : ℝ)))

/-- The breakdown dictionary built by `apply_environmental_corrections`. -/
def correction_summary (s : MotorSpecification) : CorrectionSummary :=
  let corrections := ENVIRONMENTAL_CORRECTIONS s.environment
  ⟨corrections.salt, corrections.temp, corrections.vibration,
   corrections.salt * corrections.temp * corrections.vibration⟩

/-- `apply_environmental_corrections`. -/
def apply_environmental_corrections (s : MotorSpecification) (base_torque : ℚ) :
    ℚ × CorrectionSummary :=
  let corrections := ENVIRONMENTAL_CORRECTIONS s.environment
  let salt_corrected := base_torque * corrections.salt
  let temp_corrected := salt_corrected * corrections.temp
  let final_corrected := temp_corrected * corrections.vibration
  (final_corrected, correction_summary s)

/-- `get_classification_safety_factor` (`SAFETY_FACTORS.get(c, 2.0)`; the
dictionary is total over the enumeration, so the default is never used). -/
def get_classification_safety_factor (s : MotorSpecification) : ℚ :=
  SAFETY_FACTORS s.classification

/-- `perform_comprehensive_calculation`: steps 1-6 in the source's order;
the `try`/`except` block logs and re-raises, so any inner exception
propagates unchanged and the `CalculationResult` is built only after every
step has succeeded. -/
noncomputable def perform_comprehensive_calculation (s : MotorSpecification)
    (time_series torque_series : Option (List (Option ℚ))) :
    Except String CalculationResult :=
  let load_force_n : ℚ := s.load_capacity_ton * 1000 * GRAVITY_ACCELERATION
  match calculate_basic_torque s load_force_n with
  | .error e => .error e
  | .ok basic_torque =>
    let env := apply_environmental_corrections s basic_torque
    let classification_safety := get_classification_safety_factor s
    let final_torque := env.1 * classification_safety * s.safety_factor
    let power_kw := calculate_power_requirement s ((final_torque : ℚ) : ℝ)
    match calculate_optimal_gear_ratio s with
    | .error e => .error e
    | .ok optimal_gear =>
      match calculate_minimum_gear_ratio s with
      | .error e => .error e
      | .ok minimum_gear =>
        match time_series, torque_series with
        | some ts, some τs =>
          match calculate_rms_torque ts τs with
          | .error e => .error e
          | .ok rms_torque =>
            .ok ⟨((final_torque : ℚ) : ℝ), power_kw, optimal_gear, minimum_gear,
                 some rms_torque, some env.2⟩
        | _, _ =>
          .ok ⟨((final_torque : ℚ) : ℝ), power_kw, optimal_gear, minimum_gear,
               none, some env.2⟩

/-- The `CalculationResult` produced by `perform_comprehensive_calculation`
on a validated specification when no duty-cycle series is supplied: the
composition of the six pipeline steps. -/
noncomputable def pipelineResult (s : MotorSpecification) : CalculationResult :=
  let final_torque := s.load_capacity_ton * 1000 * GRAVITY_ACCELERATION *
      s.drum_radius_m / s.system_efficiency *
      (ENVIRONMENTAL_CORRECTIONS s.environment).salt *
      (ENVIRONMENTAL_CORRECTIONS s.environment).temp *
      (ENVIRONMENTAL_CORRECTIONS s.environment).vibration *
      get_classification_safety_factor s * s.safety_factor
  { required_torque_nm := ((final_torque : ℚ) : ℝ)
    motor_power_kw := calculate_power_requirement s ((final_torque : ℚ) : ℝ)
    optimal_gear_ratio := Real.sqrt ((s.load_inertia_kgm2 / s.motor_inertia_kgm2 : ℚ))
    minimum_gear_ratio :=
      Real.sqrt ((s.load_inertia_kgm2 / s.motor_inertia_kgm2 : ℚ)) / Real.sqrt 10
    rms_torque_nm := none
    environmental_corrections := some (correction_summary s) }

/-- The example specification built in `main`
(삼성중공업 컨테이너선 윈치, 50 t / 1800 rpm / OFFSHORE / DNV). -/
def container_ship_winch : MotorSpecification :=
  { load_capacity_ton := 50.0
    operating_speed_rpm := 1800
    drum_radius_m := 1.2
    system_efficiency := 0.85
    safety_factor := 1.2
    load_inertia_kgm2 := 4250
    motor_inertia_kgm2 := 125
    environment := .OFFSHORE
    classification := .DNV }

section Lemmas

/-- `_validate_inputs` succeeds exactly on specifications satisfying all
eight invariants. -/
lemma validate_ok_iff (s : MotorSpecification) :
    _validate_inputs s = Except.ok () ↔ ValidSpec s := by
  constructor
  · intro h
    unfold _validate_inputs at h
    split_ifs at h with h1 h2 h3 h4 h5 h6 h7 h8
    all_goals
      first
        | exact Except.noConfusion h
        | exact ⟨h1, h2, h3, h4.1, h4.2, h5, h6, h7, h8⟩
  · intro hv
    obtain ⟨v1, v2, v3, v4, v5, v6, v7, v8, v9⟩ := hv
    unfold _validate_inputs
    rw [if_neg (not_not_intro v1), if_neg (not_not_intro v2),
        if_neg (not_not_intro v3), if_neg (not_not_intro ⟨v4, v5⟩),
        if_neg (not_not_intro v6), if_neg (not_not_intro v7),
        if_neg (not_not_intro v8), if_neg (not_not_intro v9)]

/-- When some invariant fails, `_validate_inputs` raises one of the eight
messages in `validationMessages`. -/
lemma validate_error_mem (s : MotorSpecification) (h : ¬ ValidSpec s) :
    ∃ m, _validate_inputs s = Except.error m ∧ m ∈ validationMessages := by
  unfold _validate_inputs
  unfold ValidSpec at h
  split_ifs with h1 h2 h3 h4 h5 h6 h7 h8 <;>
    first
      | (exact ⟨_, rfl, by simp [validationMessages]⟩)
      | (exact absurd ⟨h1, h2, h3, h4.1, h4.2, h5, h6, h7, h8⟩ h)

/-- `calculate_basic_torque` on a positive force. -/
lemma basic_torque_of_pos (s : MotorSpecification) (f : ℚ) (hf : 0 < f) :
    calculate_basic_torque s f =
      Except.ok (f * s.drum_radius_m / s.system_efficiency) := by
  unfold calculate_basic_torque
  rw [if_neg (not_le.mpr hf)]

/-- `calculate_optimal_gear_ratio` on a positive motor inertia. -/
lemma optimal_gear_of_pos (s : MotorSpecification) (h : 0 < s.motor_inertia_kgm2) :
    calculate_optimal_gear_ratio s =
      Except.ok (Real.sqrt ((s.load_inertia_kgm2 / s.motor_inertia_kgm2 : ℚ))) := by
  unfold calculate_optimal_gear_ratio
  rw [if_neg (not_le.mpr h)]

/-- `calculate_minimum_gear_ratio` on a positive motor inertia. -/
lemma minimum_gear_of_pos (s : MotorSpecification) (h : 0 < s.motor_inertia_kgm2) :
    calculate_minimum_gear_ratio s =
      Except.ok (Real.sqrt ((s.load_inertia_kgm2 / s.motor_inertia_kgm2 : ℚ)) /
        Real.sqrt 10) := by
  unfold calculate_minimum_gear_ratio
  rw [optimal_gear_of_pos s h]
  rfl

/-- On a validated specification, `perform_comprehensive_calculation`
reduces to `pipelineResult` with the optional RMS step folded in. -/
lemma perform_valid_eq (s : MotorSpecification) (hv : ValidSpec s)
    (time_series torque_series : Option (List (Option ℚ))) :
    perform_comprehensive_calculation s time_series torque_series =
      match time_series, torque_series with
      | some ts, some τs =>
        (calculate_rms_torque ts τs).map
          (fun v => { pipelineResult s with rms_torque_nm := some v })
      | _, _ => Except.ok (pipelineResult s) := by
  obtain ⟨hc, -, -, -, -, -, -, hm, -⟩ := hv
  have hf : 0 < s.load_capacity_ton * 1000 * GRAVITY_ACCELERATION := by
    have h1000 : (0 : ℚ) < 1000 * GRAVITY_ACCELERATION := by
      norm_num [GRAVITY_ACCELERATION]
    calc (0 : ℚ) < s.load_capacity_ton * (1000 * GRAVITY_ACCELERATION) :=
          mul_pos hc h1000
      _ = s.load_capacity_ton * 1000 * GRAVITY_ACCELERATION := by ring
  unfold perform_comprehensive_calculation
  simp only [basic_torque_of_pos s _ hf, optimal_gear_of_pos s hm,
    minimum_gear_of_pos s hm]
  cases time_series with
  | none =>
      cases torque_series <;>
        simp [pipelineResult, apply_environmental_corrections]
  | some ts =>
      cases torque_series with
      | none => simp [pipelineResult, apply_environmental_corrections]
      | some τs =>
          cases h : calculate_rms_torque ts τs <;>
            simp [h, Except.map, pipelineResult, apply_environmental_corrections]

/-- Lifting: on a nonnegative mean square `calculate_rms_torque` succeeds
with its square root. -/
lemma rms_torque_eq_ok (ts τs : List (Option ℚ)) (q : ℚ) (hq : ¬ q < 0)
    (h : rms_mean_square ts τs = Except.ok q) :
    calculate_rms_torque ts τs = Except.ok (Real.sqrt ((q : ℝ))) := by
  unfold calculate_rms_torque
  rw [h]
  exact if_neg hq

/-- Lifting: on a negative mean square `calculate_rms_torque` raises the
`math.sqrt` domain error. -/
lemma rms_torque_domain_error (ts τs : List (Option ℚ)) (q : ℚ) (hq : q < 0)
    (h : rms_mean_square ts τs = Except.ok q) :
    calculate_rms_torque ts τs = Except.error "math domain error" := by
  unfold calculate_rms_torque
  rw [h]
  exact if_pos hq

/-- Lifting: `calculate_rms_torque` propagates `rms_mean_square` errors. -/
lemma rms_torque_eq_error (ts τs : List (Option ℚ)) (e : String)
    (h : rms_mean_square ts τs = Except.error e) :
    calculate_rms_torque ts τs = Except.error e := by
  unfold calculate_rms_torque
  rw [h]

/-- Error characterization of `rms_mean_square`: it raises exactly on a
length mismatch, an empty input, or a zero sum of valid time values
(which subsumes the all-NaN case, since an empty valid set sums to 0). -/
lemma rms_mean_square_error_iff (ts τs : List (Option ℚ)) :
    (∃ e, rms_mean_square ts τs = Except.error e) ↔
      (ts.length ≠ τs.length ∨ ts = [] ∨
        ((validPairs ts τs).map Prod.fst).sum = 0) := by
  unfold rms_mean_square
  split_ifs with h1 h2 h3 h4
  · simp [h1]
  · simp [List.length_eq_zero.mp h2]
  · simp [h3]
  · simp [h4]
  · constructor
    · rintro ⟨e, he⟩
      simp at he
    · rintro (hc | hc | hc)
      · exact absurd hc h1
      · exact absurd (by simp [hc] : ts.length = 0) h2
      · exact absurd hc h4

/-- Permuting the zipped inputs permutes the surviving valid pairs. -/
lemma validPairs_perm (ts τs ts2 τs2 : List (Option ℚ))
    (hp : (ts.zip τs).Perm (ts2.zip τs2)) :
    (validPairs ts τs).Perm (validPairs ts2 τs2) :=
  hp.filterMap _

/-- `rms_mean_square` is invariant under a simultaneous permutation of the
paired inputs. -/
lemma rms_mean_square_perm (ts τs ts2 τs2 : List (Option ℚ))
    (h : ts.length = τs.length) (h2 : ts2.length = τs2.length)
    (hp : (ts.zip τs).Perm (ts2.zip τs2)) :
    rms_mean_square ts τs = rms_mean_square ts2 τs2 := by
  have hpv := validPairs_perm ts τs ts2 τs2 hp
  have hl := hp.length_eq
  simp only [List.length_zip] at hl
  have hlen : ts.length = ts2.length := by omega
  have hplen := hpv.length_eq
  have hsum : ((validPairs ts τs).map Prod.fst).sum =
      ((validPairs ts2 τs2).map Prod.fst).sum := (hpv.map _).sum_eq
  have hsq : ((validPairs ts τs).map fun p => p.2 ^ 2 * p.1).sum =
      ((validPairs ts2 τs2).map fun p => p.2 ^ 2 * p.1).sum := (hpv.map _).sum_eq
  have hc1 : ¬ ts.length ≠ τs.length := by simp [h]
  have hc2 : ¬ ts2.length ≠ τs2.length := by simp [h2]
  unfold rms_mean_square
  rw [if_neg hc1, if_neg hc2]
  by_cases hz : ts.length = 0
  · have hz2 : ts2.length = 0 := by omega
    rw [if_pos hz, if_pos hz2]
  · have hz2 : ¬ ts2.length = 0 := by omega
    rw [if_neg hz, if_neg hz2]
    by_cases hq : validPairs ts τs = []
    · have hq2 : validPairs ts2 τs2 = [] := by
        rw [← List.length_eq_zero] at hq ⊢
        omega
      rw [if_pos hq, if_pos hq2]
    · have hq2 : ¬ validPairs ts2 τs2 = [] := by
        rw [← List.length_eq_zero] at hq ⊢
        omega
      rw [if_neg hq, if_neg hq2, hsum, hsq]

/-- On NaN-free inputs the valid pairs are exactly the zipped inputs. -/
lemma validPairs_map_some (ts τs : List ℚ) :
    validPairs (ts.map some) (τs.map some) = ts.zip τs := by
  induction ts generalizing τs with
  | nil => simp [validPairs]
  | cons t ts ih =>
    cases τs with
    | nil => simp [validPairs]
    | cons τ τs =>
      simp only [validPairs, List.map_cons, List.zip_cons_cons,
        List.filterMap_cons] at ih ⊢
      simp [ih τs]

/-- Valid pairs rebuilt from their own components survive unchanged. -/
lemma validPairs_of_pairs (l : List (ℚ × ℚ)) :
    validPairs (l.map fun p => some p.1) (l.map fun p => some p.2) = l := by
  induction l with
  | nil => rfl
  | cons p l ih =>
    simp only [validPairs, List.map_cons, List.zip_cons_cons,
      List.filterMap_cons] at ih ⊢
    simp [ih]

/-- `rms_mean_square` on NaN-free inputs of equal nonzero length with
nonzero total time: the time-weighted mean of the squared torques. -/
lemma rms_mean_square_nonan (ts τs : List ℚ) (hlen : ts.length = τs.length)
    (hne : ts ≠ []) (hsum : ts.sum ≠ 0) :
    rms_mean_square (ts.map some) (τs.map some) =
      Except.ok ((((ts.zip τs).map fun p => p.2 ^ 2 * p.1).sum) / ts.sum) := by
  have hzlen : (ts.zip τs).length = ts.length := by
    rw [List.length_zip]
    omega
  have hfst : (ts.zip τs).map Prod.fst = ts :=
    List.map_fst_zip ts τs (le_of_eq hlen)
  have hzne : ts.zip τs ≠ [] := by
    intro hnil
    have h0 : ts.length = 0 := by
      rw [← hzlen, hnil]
      rfl
    exact hne (List.length_eq_zero.mp h0)
  have hc1 : ¬ (ts.map some).length ≠ (τs.map some).length := by simp [hlen]
  have hc2 : ¬ (ts.map some).length = 0 := by simpa using hne
  unfold rms_mean_square
  rw [validPairs_map_some, hfst, if_neg hc1, if_neg hc2, if_neg hzne,
    if_neg hsum]

/-- Dropping the NaN pairs (in a paired fashion) from a nonempty,
length-matched input with at least one valid pair does not change
`calculate_rms_torque`. -/
lemma rms_drop_nan (ts τs : List (Option ℚ)) (hlen : ts.length = τs.length)
    (hne : ts ≠ []) (hvp : validPairs ts τs ≠ []) :
    calculate_rms_torque ts τs =
      calculate_rms_torque ((validPairs ts τs).map fun p => some p.1)
        ((validPairs ts τs).map fun p => some p.2) := by
  have hlen0 : ts.length ≠ 0 := fun h0 => hne (List.length_eq_zero.mp h0)
  have hc1 : ¬ ts.length ≠ τs.length := by simp [hlen]
  have hc2 : ¬ ((validPairs ts τs).map fun p => some p.1).length ≠
      ((validPairs ts τs).map fun p => some p.2).length := by simp
  have hc3 : ¬ ((validPairs ts τs).map fun p => some p.1).length = 0 := by
    simpa using hvp
  have hms : rms_mean_square ts τs =
      rms_mean_square ((validPairs ts τs).map fun p => some p.1)
        ((validPairs ts τs).map fun p => some p.2) := by
    unfold rms_mean_square
    rw [validPairs_of_pairs, if_neg hc1, if_neg hlen0, if_neg hvp,
      if_neg hc2, if_neg hc3]
  unfold calculate_rms_torque
  rw [hms]

end Lemmas

section ConcreteFacts

/-- The example specification passes construction validation. -/
lemma container_ship_winch_valid :
    _validate_inputs container_ship_winch = Except.ok () :=
  (validate_ok_iff container_ship_winch).mpr
    (by norm_num [ValidSpec, container_ship_winch])

/-- The RMS step rejects an empty duty cycle. -/
lemma rms_empty_error :
    calculate_rms_torque [] [] = Except.error "빈 배열은 처리할 수 없습니다" := rfl

/-- The spec's example duty cycle has total time 12 ≠ 0. -/
lemma example_time_sum_ne :
    ([3, 2, 1, 3, 2, 1] : List ℚ).sum ≠ 0 := by norm_num

/-- RMS of the one-segment duty cycle (time 1, torque 2). -/
lemma rms_single_segment :
    calculate_rms_torque [some 1] [some 2] =
      Except.ok (Real.sqrt ((4 : ℚ) : ℝ)) := by
  have hvp : validPairs [some 1] [some 2] = [(1, 2)] := rfl
  refine rms_torque_eq_ok _ _ _ (by norm_num) ?_
  norm_num [rms_mean_square, hvp]

end ConcreteFacts

section Claims

/-- C1: on every validated specification `perform_comprehensive_calculation`
runs the fixed six-step pipeline, producing `pipelineResult`; on the example
specification (50 t, 1800 rpm, 1.2 m, 0.85, 1.2, OFFSHORE, DNV) the required
torque is exactly 50000·9.81·1.2/0.85·(1.20·1.08·1.10)·2.0·1.2 N·m and the
power is that torque times (1800·2π/60)/1000 kW; an inner failure (here, of
the RMS step) propagates unchanged and no partial result is returned. -/
theorem claim_c1_pipeline (s : MotorSpecification)
    (hs : _validate_inputs s = Except.ok ())
    (ts τs : List (Option ℚ)) (e : String)
    (he : calculate_rms_torque ts τs = Except.error e) :
    perform_comprehensive_calculation s none none =
      Except.ok (pipelineResult s) ∧
    perform_comprehensive_calculation s (some ts) (some τs) =
      Except.error e ∧
    (pipelineResult container_ship_winch).required_torque_nm =
      ((50000 * 9.81 * 1.2 / 0.85 * (1.20 * 1.08 * 1.10) * 2.0 * 1.2 : ℚ) : ℝ) ∧
    (pipelineResult container_ship_winch).motor_power_kw =
      (pipelineResult container_ship_winch).required_torque_nm *
        ((1800 : ℝ) * (2 * Real.pi) / 60) / 1000 := by
  have hv := (validate_ok_iff s).mp hs
  have hq : (container_ship_winch.load_capacity_ton * 1000 *
      GRAVITY_ACCELERATION * container_ship_winch.drum_radius_m /
      container_ship_winch.system_efficiency *
      (ENVIRONMENTAL_CORRECTIONS container_ship_winch.environment).salt *
      (ENVIRONMENTAL_CORRECTIONS container_ship_winch.environment).temp *
      (ENVIRONMENTAL_CORRECTIONS container_ship_winch.environment).vibration *
      get_classification_safety_factor container_ship_winch *
      container_ship_winch.safety_factor : ℚ) =
      (50000 * 9.81 * 1.2 / 0.85 * (1.20 * 1.08 * 1.10) * 2.0 * 1.2 : ℚ) := by
    norm_num [container_ship_winch, GRAVITY_ACCELERATION,
      ENVIRONMENTAL_CORRECTIONS, get_classification_safety_factor,
      SAFETY_FACTORS]
  have h0 : (pipelineResult container_ship_winch).required_torque_nm =
      ((container_ship_winch.load_capacity_ton * 1000 *
        GRAVITY_ACCELERATION * container_ship_winch.drum_radius_m /
        container_ship_winch.system_efficiency *
        (ENVIRONMENTAL_CORRECTIONS container_ship_winch.environment).salt *
        (ENVIRONMENTAL_CORRECTIONS container_ship_winch.environment).temp *
        (ENVIRONMENTAL_CORRECTIONS container_ship_winch.environment).vibration *
        get_classification_safety_factor container_ship_winch *
        container_ship_winch.safety_factor : ℚ) : ℝ) := rfl
  have h1 : (pipelineResult container_ship_winch).motor_power_kw =
      calculate_power_requirement container_ship_winch
        (((container_ship_winch.load_capacity_ton * 1000 *
          GRAVITY_ACCELERATION * container_ship_winch.drum_radius_m /
          container_ship_winch.system_efficiency *
          (ENVIRONMENTAL_CORRECTIONS container_ship_winch.environment).salt *
          (ENVIRONMENTAL_CORRECTIONS container_ship_winch.environment).temp *
          (ENVIRONMENTAL_CORRECTIONS
            container_ship_winch.environment).vibration *
          get_classification_safety_factor container_ship_winch *
          container_ship_winch.safety_factor : ℚ) : ℝ)) := rfl
  refine ⟨?_, ?_, ?_, ?_⟩
  · rw [perform_valid_eq s hv none none]
  · rw [perform_valid_eq s hv (some ts) (some τs)]
    simp only [he, Except.map]
  · rw [h0, hq]
  · rw [h1, h0, hq]
    simp only [calculate_power_requirement, RPM_TO_RADIAN_PER_SEC,
      WATT_TO_KILOWATT, container_ship_winch]
    push_cast
    ring

/-- C1 witness: the theorem instantiated on the example specification with
the empty duty cycle as failing RMS input. -/
theorem claim_c1_pipeline_witness :
    perform_comprehensive_calculation container_ship_winch
        (some []) (some []) = Except.error "빈 배열은 처리할 수 없습니다" :=
  (claim_c1_pipeline container_ship_winch container_ship_winch_valid [] []
    "빈 배열은 처리할 수 없습니다" rms_empty_error).2.1

/-- C2: `calculate_rms_torque` raises whenever the sequences differ in
length, whenever they are empty, and whenever the sum of the time values of
the valid (non-NaN) pairs is zero — the all-NaN case included; and invalid
pairs are excluded in a paired fashion: dropping them from both sequences
leaves the result unchanged. -/
theorem claim_c2_rms_errors (ts τs : List (Option ℚ)) :
    (ts.length ≠ τs.length →
      ∃ e, calculate_rms_torque ts τs = Except.error e) ∧
    (ts = [] ∨ τs = [] →
      ∃ e, calculate_rms_torque ts τs = Except.error e) ∧
    (((validPairs ts τs).map Prod.fst).sum = 0 →
      ∃ e, calculate_rms_torque ts τs = Except.error e) ∧
    (ts.length = τs.length → ts ≠ [] → validPairs ts τs ≠ [] →
      calculate_rms_torque ts τs =
        calculate_rms_torque ((validPairs ts τs).map fun p => some p.1)
          ((validPairs ts τs).map fun p => some p.2)) := by
  have lift : (∃ e, rms_mean_square ts τs = Except.error e) →
      ∃ e, calculate_rms_torque ts τs = Except.error e := by
    rintro ⟨e, he⟩
    exact ⟨e, rms_torque_eq_error ts τs e he⟩
  refine ⟨fun h => lift ((rms_mean_square_error_iff ts τs).mpr (Or.inl h)),
    fun h => ?_,
    fun h => lift ((rms_mean_square_error_iff ts τs).mpr (Or.inr (Or.inr h))),
    fun h1 h2 h3 => rms_drop_nan ts τs h1 h2 h3⟩
  rcases h with h | h
  · exact lift ((rms_mean_square_error_iff ts τs).mpr (Or.inr (Or.inl h)))
  · by_cases hts : ts = []
    · exact lift ((rms_mean_square_error_iff ts τs).mpr (Or.inr (Or.inl hts)))
    · refine lift ((rms_mean_square_error_iff ts τs).mpr (Or.inl ?_))
      have hlen0 : ts.length ≠ 0 := fun h0 => hts (List.length_eq_zero.mp h0)
      simpa [h] using hlen0

/-- C2 witness: a NaN in the time sequence drops the whole pair. -/
theorem claim_c2_rms_errors_witness :
    calculate_rms_torque [some 3, none] [some 4, some 5] =
      calculate_rms_torque [some 3] [some 4] :=
  (claim_c2_rms_errors [some 3, none] [some 4, some 5]).2.2.2
    (by decide) (by decide) (by decide)

/-- C3 counterexample: time=[-1, 2], torque=[10, 0] satisfies every
hypothesis of the claim (equal length, nonempty, NaN-free, total time
1 ≠ 0), yet the weighted sum is 10²·(-1) + 0²·2 = -100, so `math.sqrt`
raises its domain error and nothing equal to `sqrt(Σ(τ²·t)/Σt)` is
returned. -/
theorem claim_c3_counterexample :
    (([-1, 2] : List ℚ).length = ([10, 0] : List ℚ).length ∧
      ([-1, 2] : List ℚ) ≠ [] ∧ ([-1, 2] : List ℚ).sum ≠ 0) ∧
    calculate_rms_torque (([-1, 2] : List ℚ).map some)
        (([10, 0] : List ℚ).map some) = Except.error "math domain error" ∧
    calculate_rms_torque (([-1, 2] : List ℚ).map some)
        (([10, 0] : List ℚ).map some) ≠
      Except.ok (Real.sqrt
        ((((([-1, 2] : List ℚ).zip [10, 0]).map
          fun p => p.2 ^ 2 * p.1).sum / ([-1, 2] : List ℚ).sum : ℚ))) := by
  have hm := rms_mean_square_nonan [-1, 2] [10, 0] rfl (by decide)
    (by norm_num)
  have hq : ((((([-1, 2] : List ℚ).zip [10, 0]).map
      fun p => p.2 ^ 2 * p.1).sum / ([-1, 2] : List ℚ).sum : ℚ)) < 0 := by
    norm_num
  have he := rms_torque_domain_error _ _ _ hq hm
  refine ⟨⟨rfl, by decide, by norm_num⟩, he, fun hc => ?_⟩
  rw [he] at hc
  exact Except.noConfusion hc

/-- C3 (amended): on NaN-free equal-length nonempty inputs with nonzero
total time whose time-weighted mean square is nonnegative,
`calculate_rms_torque` is `sqrt(Σ(torque² · time) / Σ time)`; on the spec's
example duty cycle it is exactly `sqrt 345000`. -/
theorem claim_c3_rms_formula (ts τs : List ℚ) (hlen : ts.length = τs.length)
    (hne : ts ≠ []) (hsum : ts.sum ≠ 0)
    (hnn : 0 ≤ ((((ts.zip τs).map fun p => p.2 ^ 2 * p.1).sum / ts.sum : ℚ))) :
    calculate_rms_torque (ts.map some) (τs.map some) =
      Except.ok (Real.sqrt
        (((((ts.zip τs).map fun p => p.2 ^ 2 * p.1).sum / ts.sum : ℚ)))) ∧
    calculate_rms_torque ([3, 2, 1, 3, 2, 1].map some)
        ([900, 600, 0, 300, 600, 0].map some) =
      Except.ok (Real.sqrt 345000) := by
  constructor
  · exact rms_torque_eq_ok _ _ _ (not_lt.mpr hnn)
      (rms_mean_square_nonan ts τs hlen hne hsum)
  · have h := rms_torque_eq_ok _ _ _ (by norm_num)
      (rms_mean_square_nonan [3, 2, 1, 3, 2, 1] [900, 600, 0, 300, 600, 0]
        (by decide) (by decide) example_time_sum_ne)
    rw [h]
    norm_num

/-- C3 witness: the concrete duty cycle of the spec. -/
theorem claim_c3_rms_formula_witness :
    calculate_rms_torque ([3, 2, 1, 3, 2, 1].map some)
        ([900, 600, 0, 300, 600, 0].map some) =
      Except.ok (Real.sqrt 345000) :=
  (claim_c3_rms_formula [3, 2, 1, 3, 2, 1] [900, 600, 0, 300, 600, 0]
    (by decide) (by decide) example_time_sum_ne (by norm_num)).2

/-- C4 counterexample: for the single pair (time 0, torque 5) the code
raises 총 시간이 0입니다 instead of returning |5|, so the single-pair half of
the claim fails when the time weight is zero. -/
theorem claim_c4_counterexample :
    calculate_rms_torque [some 0] [some 5] = Except.error "총 시간이 0입니다" ∧
    calculate_rms_torque [some 0] [some 5] ≠ Except.ok (|(5 : ℝ)|) := by
  have hms : rms_mean_square [some 0] [some 5] =
      Except.error "총 시간이 0입니다" := by
    simp [rms_mean_square, validPairs]
  have h := rms_torque_eq_error [some 0] [some 5] _ hms
  refine ⟨h, fun hc => ?_⟩
  rw [h] at hc
  exact Except.noConfusion hc

/-- C4 (amended): `calculate_rms_torque` is invariant under a simultaneous
permutation of the paired (time, torque) entries, and for a single valid
(non-NaN) pair with nonzero time weight the result is the absolute torque
value. -/
theorem claim_c4_amended (ts τs ts2 τs2 : List (Option ℚ))
    (hlen : ts.length = τs.length) (hlen2 : ts2.length = τs2.length)
    (hp : (ts.zip τs).Perm (ts2.zip τs2)) :
    calculate_rms_torque ts τs = calculate_rms_torque ts2 τs2 ∧
    (∀ t τ : ℚ, t ≠ 0 →
      calculate_rms_torque [some t] [some τ] = Except.ok |(τ : ℝ)|) := by
  constructor
  · unfold calculate_rms_torque
    rw [rms_mean_square_perm ts τs ts2 τs2 hlen hlen2 hp]
  · intro t τ ht
    have hms : rms_mean_square [some t] [some τ] = Except.ok (τ ^ 2) := by
      have hc4 : ¬ ((validPairs [some t] [some τ]).map Prod.fst).sum = 0 := by
        simpa [validPairs] using ht
      unfold rms_mean_square
      rw [if_neg (by simp), if_neg (by simp), if_neg (by simp [validPairs]),
        if_neg hc4]
      have : ((validPairs [some t] [some τ]).map fun p => p.2 ^ 2 * p.1).sum /
          ((validPairs [some t] [some τ]).map Prod.fst).sum = τ ^ 2 := by
        simp [validPairs, mul_div_assoc, div_self ht]
      rw [this]
    rw [rms_torque_eq_ok _ _ _ (not_lt.mpr (sq_nonneg τ)) hms]
    congr 1
    push_cast
    exact Real.sqrt_sq_eq_abs _

/-- C4 witness: a concrete transposition of two pairs. -/
theorem claim_c4_amended_witness :
    calculate_rms_torque [some 1, some 2] [some 3, some 4] =
      calculate_rms_torque [some 2, some 1] [some 4, some 3] :=
  (claim_c4_amended [some 1, some 2] [some 3, some 4] [some 2, some 1]
    [some 4, some 3] rfl rfl (by decide)).1

/-- C5: construction validation succeeds exactly on specifications whose
fields all satisfy their invariants, and on any violation it raises one of
the eight messages naming the violated condition. -/
theorem claim_c5_validation (s : MotorSpecification) :
    (_validate_inputs s = Except.ok () ↔ ValidSpec s) ∧
    (¬ ValidSpec s → ∃ m, _validate_inputs s = Except.error m ∧
      m ∈ validationMessages) :=
  ⟨validate_ok_iff s, validate_error_mem s⟩

/-- C5 witness: the example specification validates. -/
theorem claim_c5_validation_witness :
    _validate_inputs container_ship_winch = Except.ok () :=
  (claim_c5_validation container_ship_winch).1.mpr
    (by norm_num [ValidSpec, container_ship_winch])

/-- C6: on a validated specification the optimal gear ratio is exactly
sqrt(load_inertia / motor_inertia) and the minimum gear ratio is the
optimal one divided by sqrt 10; the defensive motor-inertia re-check fails
on non-positive motor inertia, a branch unreachable after validation. -/
theorem claim_c6_gear_ratios (s : MotorSpecification)
    (hs : _validate_inputs s = Except.ok ()) :
    calculate_optimal_gear_ratio s =
      Except.ok (Real.sqrt
        ((s.load_inertia_kgm2 / s.motor_inertia_kgm2 : ℚ))) ∧
    calculate_minimum_gear_ratio s =
      Except.ok (Real.sqrt
        ((s.load_inertia_kgm2 / s.motor_inertia_kgm2 : ℚ)) / Real.sqrt 10) ∧
    (∀ s2 : MotorSpecification, s2.motor_inertia_kgm2 ≤ 0 →
      calculate_optimal_gear_ratio s2 =
        Except.error "모터 관성은 0보다 커야 합니다") ∧
    ¬ s.motor_inertia_kgm2 ≤ 0 := by
  obtain ⟨-, -, -, -, -, -, -, hm, -⟩ := (validate_ok_iff s).mp hs
  refine ⟨optimal_gear_of_pos s hm, minimum_gear_of_pos s hm,
    fun s2 h2 => ?_, not_le.mpr hm⟩
  unfold calculate_optimal_gear_ratio
  rw [if_pos h2]

/-- C6 witness: gear ratios of the example specification. -/
theorem claim_c6_gear_ratios_witness :
    calculate_optimal_gear_ratio container_ship_winch =
      Except.ok (Real.sqrt
        ((container_ship_winch.load_inertia_kgm2 /
          container_ship_winch.motor_inertia_kgm2 : ℚ))) :=
  (claim_c6_gear_ratios container_ship_winch container_ship_winch_valid).1

/-- C7: environmental correction multiplies the base torque by the three
tabulated factors sequentially, returns the breakdown holding each factor
and their product, the total factor is the product of the three
sub-factors, and it exceeds 1 for every defined environment. -/
theorem claim_c7_env_corrections (s : MotorSpecification)
    ( _hs : _validate_inputs s = Except.ok ()) (base_torque : ℚ) :
    (apply_environmental_corrections s base_torque).1 =
      base_torque * (ENVIRONMENTAL_CORRECTIONS s.environment).salt *
        (ENVIRONMENTAL_CORRECTIONS s.environment).temp *
        (ENVIRONMENTAL_CORRECTIONS s.environment).vibration ∧
    (apply_environmental_corrections s base_torque).2 =
      { salt_correction := (ENVIRONMENTAL_CORRECTIONS s.environment).salt
        temp_correction := (ENVIRONMENTAL_CORRECTIONS s.environment).temp
        vibration_correction :=
          (ENVIRONMENTAL_CORRECTIONS s.environment).vibration
        total_correction := (ENVIRONMENTAL_CORRECTIONS s.environment).salt *
          (ENVIRONMENTAL_CORRECTIONS s.environment).temp *
          (ENVIRONMENTAL_CORRECTIONS s.environment).vibration } ∧
    (apply_environmental_corrections s base_torque).2.total_correction =
      (apply_environmental_corrections s base_torque).2.salt_correction *
        (apply_environmental_corrections s base_torque).2.temp_correction *
        (apply_environmental_corrections s base_torque).2.vibration_correction ∧
    1 < (apply_environmental_corrections s base_torque).2.total_correction := by
  refine ⟨rfl, rfl, rfl, ?_⟩
  cases h : s.environment <;>
    norm_num [apply_environmental_corrections, correction_summary, h,
      ENVIRONMENTAL_CORRECTIONS]

/-- C7 witness: the OFFSHORE total factor 1.4256 exceeds 1. -/
theorem claim_c7_env_corrections_witness :
    1 < (apply_environmental_corrections container_ship_winch
      100).2.total_correction :=
  (claim_c7_env_corrections container_ship_winch container_ship_winch_valid
    100).2.2.2

/-- C8: basic torque is force × drum_radius / system_efficiency for
positive force, raises a domain error exactly when force ≤ 0, and is
linear: doubling the force doubles the torque. -/
theorem claim_c8_basic_torque (s : MotorSpecification)
    ( _hs : _validate_inputs s = Except.ok ()) (force_n : ℚ) :
    (0 < force_n → calculate_basic_torque s force_n =
      Except.ok (force_n * s.drum_radius_m / s.system_efficiency)) ∧
    ((∃ e, calculate_basic_torque s force_n = Except.error e) ↔
      force_n ≤ 0) ∧
    (0 < force_n → calculate_basic_torque s (2 * force_n) =
      (calculate_basic_torque s force_n).map fun torque => 2 * torque) := by
  refine ⟨fun hf => basic_torque_of_pos s force_n hf, ?_, fun hf => ?_⟩
  · unfold calculate_basic_torque
    split_ifs with h
    · simp [h]
    · simp [h]
  · rw [basic_torque_of_pos s force_n hf,
      basic_torque_of_pos s (2 * force_n) (by positivity)]
    simp only [Except.map]
    rw [mul_div_assoc, mul_div_assoc, mul_assoc]

/-- C8 witness: the formula at force 10 N on the example specification. -/
theorem claim_c8_basic_torque_witness :
    calculate_basic_torque container_ship_winch 10 =
      Except.ok (10 * container_ship_winch.drum_radius_m /
        container_ship_winch.system_efficiency) :=
  (claim_c8_basic_torque container_ship_winch container_ship_winch_valid
    10).1 (by norm_num)

/-- C9: the duty-cycle arguments influence only the `rms_torque_nm` field:
when the RMS step succeeds with value v, the full calculation returns the
no-duty-cycle result with `rms_torque_nm` replaced by v, all other fields
identical. -/
theorem claim_c9_duty_cycle_frame (s : MotorSpecification)
    (hs : _validate_inputs s = Except.ok ()) (ts τs : List (Option ℚ))
    (v : ℝ) (hrms : calculate_rms_torque ts τs = Except.ok v) :
    perform_comprehensive_calculation s (some ts) (some τs) =
      Except.ok { pipelineResult s with rms_torque_nm := some v } ∧
    perform_comprehensive_calculation s none none =
      Except.ok (pipelineResult s) := by
  have hv := (validate_ok_iff s).mp hs
  constructor
  · rw [perform_valid_eq s hv (some ts) (some τs)]
    simp only [hrms, Except.map]
  · rw [perform_valid_eq s hv none none]

/-- C9 witness: a one-segment duty cycle only fills in the RMS field. -/
theorem claim_c9_duty_cycle_frame_witness :
    perform_comprehensive_calculation container_ship_winch
        (some [some 1]) (some [some 2]) =
      Except.ok { pipelineResult container_ship_winch with
        rms_torque_nm := some (Real.sqrt ((4 : ℚ) : ℝ)) } :=
  (claim_c9_duty_cycle_frame container_ship_winch container_ship_winch_valid
    [some 1] [some 2] (Real.sqrt ((4 : ℚ) : ℝ)) rms_single_segment).1

/-- C10: supplying only one of the two duty-cycle arguments silently skips
the RMS step: the call behaves exactly as when both are omitted, returning
a result with `rms_torque_nm = none` and raising nothing. -/
theorem claim_c10_partial_duty (s : MotorSpecification)
    (hs : _validate_inputs s = Except.ok ()) (ts : List (Option ℚ)) :
    perform_comprehensive_calculation s (some ts) none =
      perform_comprehensive_calculation s none none ∧
    perform_comprehensive_calculation s none (some ts) =
      perform_comprehensive_calculation s none none ∧
    perform_comprehensive_calculation s (some ts) none =
      Except.ok (pipelineResult s) ∧
    (pipelineResult s).rms_torque_nm = none := by
  have hv := (validate_ok_iff s).mp hs
  refine ⟨?_, ?_, ?_, rfl⟩
  · rw [perform_valid_eq s hv (some ts) none, perform_valid_eq s hv none none]
  · rw [perform_valid_eq s hv none (some ts), perform_valid_eq s hv none none]
  · rw [perform_valid_eq s hv (some ts) none]

/-- C10 witness: a time series with no torque series is ignored. -/
theorem claim_c10_partial_duty_witness :
    perform_comprehensive_calculation container_ship_winch
        (some [none]) none =
      Except.ok (pipelineResult container_ship_winch) :=
  (claim_c10_partial_duty container_ship_winch container_ship_winch_valid
    [none]).2.2.1

end Claims

end MarineMotor
